import Mathlib

/-!
Verification of the iron–carbon phase-diagram engine (`ThermoEngine` in
`src/App.jsx`). JavaScript numbers are modelled as real numbers, `Math.pow`
as `Real.rpow`, `Math.exp` as `Real.exp`, `Math.round` as `jsRound`, and
`String.prototype.includes` as infix search on the character list. The
`lever` and `single` closures, which in the source mutate the outer
`regionId`, are modelled as functions returning the pair
(regionId, fractions); the dead local `phases` is dropped.
-/

namespace ThermoEngine

noncomputable section

def EPS : ℝ := 1e-5

-- c_alpha (App.jsx lines 17-21)
def c_alpha (T : ℝ) : ℝ :=
  if T > 912 then 0
  else if T ≥ 727 then 0.022 * ((912 - T) / 185)
  else 0.022 * (max 0 T / 727) ^ (3 : ℝ)

-- c_a3 (lines 22-25)
def c_a3 (T : ℝ) : ℝ :=
  if T > 912 ∨ T < 727 then 0.76
  else 0.76 * ((912 - T) / 185) ^ (1.2 : ℝ)

-- c_acm (lines 26-30)
def c_acm (T : ℝ) : ℝ :=
  if T < 727 then 0.76
  else if T > 1147 then 2.11
  else 0.76 + (2.11 - 0.76) * ((T - 727) / 420) ^ (1.4 : ℝ)

-- c_solidus (lines 31-35)
def c_solidus (T : ℝ) : ℝ :=
  if T < 1147 then 2.11
  else if T > 1495 then 0.17
  else 0.17 + (2.11 - 0.17) * ((1495 - T) / 348) ^ (0.85 : ℝ)

-- c_liquidus (lines 36-40)
def c_liquidus (T : ℝ) : ℝ :=
  if T < 1147 then 4.3
  else if T > 1495 then 0.53
  else 0.53 + (4.3 - 0.53) * ((1495 - T) / 348) ^ (0.85 : ℝ)

-- c_l_fe3c (lines 41-44)
def c_l_fe3c (T : ℝ) : ℝ :=
  if T < 1147 then 4.3
  else 4.3 + (6.67 - 4.3) * ((T - 1147) / 103)

-- c_delta_solidus (lines 45-49)
def c_delta_solidus (T : ℝ) : ℝ :=
  if T < 1394 ∨ T > 1538 then 0
  else if T ≥ 1495 then 0.09 * ((1538 - T) / 43)
  else 0.09 * ((T - 1394) / 101)

-- c_delta_liquidus (lines 50-53)
def c_delta_liquidus (T : ℝ) : ℝ :=
  if T < 1495 ∨ T > 1538 then 0
  else 0.53 * ((1538 - T) / 43)

structure PhaseFraction where
  name : String
  frac : ℝ
  pos : ℝ

-- the lever closure (lines 64-75); regionId is returned instead of mutated
def lever (safeC : ℝ) (id n1 n2 : String) (c1 c2 : ℝ) : String × List PhaseFraction :=
  let span := c2 - c1
  if span < EPS then (id, [⟨n1, 100, c1⟩])
  else
    let w2 := ((safeC - c1) / span) * 100
    let w1 := 100 - w2
    (id, [⟨n1, max 0 (min 100 w1), c1⟩, ⟨n2, max 0 (min 100 w2), c2⟩])

-- the single closure (lines 77-81)
def single (safeC : ℝ) (id n : String) : String × List PhaseFraction :=
  (id, [⟨n, 100, safeC⟩])

-- the region-classification decision tree (lines 83-130)
def classify (safeC safeT : ℝ) : String × List PhaseFraction :=
  if safeT ≥ 1394 then
    if safeT ≥ 1538 then single safeC "L" "Liquid"
    else if safeT ≥ 1495 then
      let cd_s := c_delta_solidus safeT
      let cd_l := c_delta_liquidus safeT
      if safeC ≤ cd_s then single safeC "delta" "Delta Ferrite (δ)"
      else if safeC > cd_s ∧ safeC < cd_l then
        lever safeC "delta_L" "Delta Ferrite (δ)" "Liquid" cd_s cd_l
      else single safeC "L" "Liquid"
    else
      let cd_s := c_delta_solidus safeT
      let c_perit_gamma := 0.17 * ((safeT - 1394) / 101)
      let c_sol := c_solidus safeT
      let c_liq := c_liquidus safeT
      if safeC ≤ cd_s then single safeC "delta" "Delta Ferrite (δ)"
      else if safeC > cd_s ∧ safeC < c_perit_gamma then
        lever safeC "delta_gamma" "Delta Ferrite (δ)" "Austenite (γ)" cd_s c_perit_gamma
      else if safeC ≥ c_perit_gamma ∧ safeC ≤ c_sol then single safeC "gamma" "Austenite (γ)"
      else if safeC > c_sol ∧ safeC < c_liq then
        lever safeC "gamma_L" "Austenite (γ)" "Liquid" c_sol c_liq
      else if safeC ≥ c_liq ∧ safeC ≤ c_l_fe3c safeT then single safeC "L" "Liquid"
      else lever safeC "L_Fe3C" "Liquid" "Cementite (Fe₃C)" (c_l_fe3c safeT) 6.67
  else if safeT > 1147 then
    let c_sol := c_solidus safeT
    let c_liq := c_liquidus safeT
    let c_lf := c_l_fe3c safeT
    if safeC ≤ c_sol then single safeC "gamma" "Austenite (γ)"
    else if safeC > c_sol ∧ safeC < c_liq then
      lever safeC "gamma_L" "Austenite (γ)" "Liquid" c_sol c_liq
    else if safeC ≥ c_liq ∧ safeC ≤ c_lf then single safeC "L" "Liquid"
    else lever safeC "L_Fe3C" "Liquid" "Cementite (Fe₃C)" c_lf 6.67
  else if safeT > 727 then
    let c_a3_val := c_a3 safeT
    let c_acm_val := c_acm safeT
    let c_al := c_alpha safeT
    if safeC ≤ c_al then single safeC "alpha" "Ferrite (α)"
    else if safeC > c_al ∧ safeC ≤ c_a3_val then
      lever safeC "alpha_gamma" "Ferrite (α)" "Austenite (γ)" c_al c_a3_val
    else if safeC > c_a3_val ∧ safeC ≤ c_acm_val then single safeC "gamma" "Austenite (γ)"
    else lever safeC "gamma_Fe3C" "Austenite (γ)" "Cementite (Fe₃C)" c_acm_val 6.67
  else
    let c_al := c_alpha safeT
    if safeC ≤ c_al then single safeC "alpha" "Ferrite (α)"
    else lever safeC "alpha_Fe3C" "Ferrite (α)" "Cementite (Fe₃C)" c_al 6.67

-- fraction renormalization (lines 132-135)
def renormalize (fractions : List PhaseFraction) : List PhaseFraction :=
  let total := (fractions.map PhaseFraction.frac).sum
  if |total - 100| > EPS then
    fractions.map (fun f => { f with frac := (f.frac / total) * 100 })
  else fractions

-- region label derivation (lines 152-164)
def regionLabelOf (isQuenched : Bool) (regionId : String) (safeC : ℝ) : String :=
  if isQuenched then "Martensitic (Quenched)"
  else if regionId = "L" then "Liquid Melt"
  else if regionId = "gamma" then "Austenite Field (γ)"
  else if regionId = "alpha" then "Ferrite Field (α)"
  else if regionId = "delta" then "Delta Ferrite (δ)"
  else if regionId = "gamma_L" then "Mushy Zone (L + γ)"
  else if regionId = "delta_L" then "Mushy Zone (L + δ)"
  else if regionId = "delta_gamma" then "Two-Phase (δ + γ)"
  else if regionId = "alpha_gamma" then "Intercritical (α + γ)"
  else if regionId = "gamma_Fe3C" then
    if safeC < 2.11 then "Austenite + Cementite" else "Austenite + Ledeburite"
  else if regionId = "alpha_Fe3C" then
    if safeC < 0.76 then "Hypoeutectoid (α + P)"
    else if |safeC - 0.76| < 0.02 then "Eutectoid (Pearlite)"
    else if safeC ≤ 2.11 then "Hypereutectoid (P + Fe₃C)"
    else "Cast Iron (White)"
  else if regionId = "L_Fe3C" then "Liquid + Cementite"
  else "Unknown Region"

structure Props where
  micro : String
  crystal : String
  yieldStrength : ℝ
  uts : ℝ
  hardness : ℝ
  elong : ℝ

-- JavaScript Math.round
def jsRound (x : ℝ) : ℝ := (⌊x + 1 / 2⌋ : ℤ)

-- String.prototype.includes
def jsIncludes (s pat : String) : Bool := decide (pat.data <:+: s.data)

-- predictProperties (lines 173-224); the initial values of crystal and
-- micro are dead (every branch overwrites them), so each branch returns
-- its own record
def predictProperties (c T : ℝ) (fractions : List PhaseFraction)
    (isQuenched : Bool) : Props :=
  if T > 1495 then
    { micro := "Uniform Liquid", crystal := "Amorphous",
      yieldStrength := 0, uts := 0, hardness := 0, elong := 100 }
  else if isQuenched then
    let yieldStr := 1000 + 2000 * c
    let hardness := 300 + 500 * c
    let uts := yieldStr * 1.1 + hardness * 0.4
    let elong := max 1 (15 - c * 15)
    { micro := if c < 0.6 then "Lath Martensite" else "Plate Martensite",
      crystal := "Body-Centered Tetragonal (BCT)",
      yieldStrength := jsRound yieldStr, uts := jsRound uts,
      hardness := jsRound hardness, elong := jsRound elong }
  else if T > 727 then
    { micro := "Austenitic / High Temp phases", crystal := "FCC Dominant",
      yieldStrength := jsRound 50, uts := jsRound 120,
      hardness := jsRound 40, elong := jsRound 45 }
  else
    let fAlpha := match fractions.find? (fun f => jsIncludes f.name "Ferrite") with
      | some f => f.frac / 100
      | none => 0
    let fFe3C := match fractions.find? (fun f => jsIncludes f.name "Cementite") with
      | some f => f.frac / 100
      | none => 0
    let yieldStr := fAlpha * 150 + fFe3C * 1200
    let hardness := fAlpha * 80 + fFe3C * 800
    let uts := yieldStr * 1.35 + hardness * 0.5
    let elong := max 1 (fAlpha * 40 + fFe3C * 2)
    let micro :=
      if c < 0.02 then "Equiaxed Ferrite"
      else if |c - 0.76| < 0.02 then "100% Pearlite (Lamellar)"
      else if c < 0.76 then "Proeutectoid Ferrite + Pearlite"
      else if c ≤ 2.11 then "Proeutectoid Cementite Network + Pearlite"
      else if |c - 4.3| < 0.05 then "Ledeburite (Eutectic)"
      else "Primary Cementite + Transformed Ledeburite"
    { micro := micro, crystal := "BCC + Orthorhombic",
      yieldStrength := jsRound yieldStr, uts := jsRound uts,
      hardness := jsRound hardness, elong := jsRound elong }

structure ThermodynamicState where
  regionId : String
  regionLabel : String
  fractions : List PhaseFraction
  isQuenched : Bool
  msTemp : Option ℝ
  micro : String
  crystal : String
  yieldStrength : ℝ
  uts : ℝ
  hardness : ℝ
  elong : ℝ

-- the martensite-start temperature (line 138)
def msTempOf (safeC : ℝ) : ℝ := 539 - 423 * safeC

-- the quench condition (line 140)
def quenchCond (safeC safeT rate : ℝ) : Prop :=
  rate ≥ 50 ∧ safeC < 2.0 ∧ safeT < msTempOf safeC

instance (safeC safeT rate : ℝ) : Decidable (quenchCond safeC safeT rate) := by
  unfold quenchCond
  infer_instance

-- the Koistinen-Marburger fraction, clamped (lines 142-143)
def fmOf (safeC safeT : ℝ) : ℝ :=
  max 0 (min 1 (1 - Real.exp (-0.011 * (msTempOf safeC - safeT))))

-- the override fractions (lines 146-149)
def martensiteFractions (safeC safeT : ℝ) : List PhaseFraction :=
  [⟨"Martensite (BCT)", fmOf safeC safeT * 100, safeC⟩,
   ⟨"Retained Austenite", (1 - fmOf safeC safeT) * 100, safeC⟩]

-- getState after input clamping (lines 60-170)
def getStateCore (safeC safeT rate : ℝ) : ThermodynamicState :=
  let eqRes := classify safeC safeT
  let fr := renormalize eqRes.2
  if quenchCond safeC safeT rate then
    let mFr := martensiteFractions safeC safeT
    let p := predictProperties safeC safeT mFr true
    { regionId := "martensite",
      regionLabel := regionLabelOf true "martensite" safeC,
      fractions := mFr, isQuenched := true,
      msTemp := if safeC < 2.0 then some (msTempOf safeC) else none,
      micro := p.micro, crystal := p.crystal, yieldStrength := p.yieldStrength,
      uts := p.uts, hardness := p.hardness, elong := p.elong }
  else
    let p := predictProperties safeC safeT fr false
    { regionId := eqRes.1,
      regionLabel := regionLabelOf false eqRes.1 safeC,
      fractions := fr, isQuenched := false,
      msTemp := if safeC < 2.0 then some (msTempOf safeC) else none,
      micro := p.micro, crystal := p.crystal, yieldStrength := p.yieldStrength,
      uts := p.uts, hardness := p.hardness, elong := p.elong }

-- getState entry point (lines 56-58 clamp, then the body)
def getState (c T rate : ℝ) : ThermodynamicState :=
  getStateCore (max 0 (min 6.67 c)) (max 0 T) rate

end

/-! ## Helper lemmas -/

lemma clampPair_sum (w : ℝ) :
    max 0 (min 100 (100 - w)) + max 0 (min 100 w) = 100 := by
  rw [min_def, min_def, max_def, max_def]
  split_ifs <;> linarith

lemma lever_fst (safeC : ℝ) (id n1 n2 : String) (c1 c2 : ℝ) :
    (lever safeC id n1 n2 c1 c2).1 = id := by
  simp only [lever]
  split <;> rfl

lemma single_fst (safeC : ℝ) (id n : String) :
    (single safeC id n).1 = id := rfl

lemma lever_sum (safeC : ℝ) (id n1 n2 : String) (c1 c2 : ℝ) :
    (((lever safeC id n1 n2 c1 c2).2).map PhaseFraction.frac).sum = 100 := by
  simp only [lever]
  split
  · simp
  · simpa using clampPair_sum (((safeC - c1) / (c2 - c1)) * 100)

lemma single_sum (safeC : ℝ) (id n : String) :
    (((single safeC id n).2).map PhaseFraction.frac).sum = 100 := by
  simp [single]

lemma classify_sum (safeC safeT : ℝ) :
    (((classify safeC safeT).2).map PhaseFraction.frac).sum = 100 := by
  simp only [classify]
  split_ifs <;> first
    | apply single_sum
    | apply lever_sum

lemma renormalize_eq_self {l : List PhaseFraction}
    (h : (l.map PhaseFraction.frac).sum = 100) : renormalize l = l := by
  simp only [renormalize, h]
  norm_num [EPS]

lemma getStateCore_fractions (safeC safeT rate : ℝ) :
    (getStateCore safeC safeT rate).fractions =
      if quenchCond safeC safeT rate then martensiteFractions safeC safeT
      else renormalize (classify safeC safeT).2 := by
  simp only [getStateCore]
  split_ifs <;> rfl

lemma getStateCore_regionId (safeC safeT rate : ℝ) :
    (getStateCore safeC safeT rate).regionId =
      if quenchCond safeC safeT rate then "martensite" else (classify safeC safeT).1 := by
  simp only [getStateCore]
  split_ifs <;> rfl

lemma getStateCore_regionLabel (safeC safeT rate : ℝ) :
    (getStateCore safeC safeT rate).regionLabel =
      if quenchCond safeC safeT rate then regionLabelOf true "martensite" safeC
      else regionLabelOf false (classify safeC safeT).1 safeC := by
  simp only [getStateCore]
  split_ifs <;> rfl

lemma getStateCore_isQuenched (safeC safeT rate : ℝ) :
    (getStateCore safeC safeT rate).isQuenched =
      if quenchCond safeC safeT rate then true else false := by
  simp only [getStateCore]
  split_ifs <;> rfl

lemma getStateCore_fractions_sum (safeC safeT rate : ℝ) :
    (((getStateCore safeC safeT rate).fractions).map PhaseFraction.frac).sum = 100 := by
  rw [getStateCore_fractions]
  split_ifs with h
  · simp only [martensiteFractions, List.map_cons, List.map_nil, List.sum_cons, List.sum_nil]
    ring
  · rw [renormalize_eq_self (classify_sum safeC safeT), classify_sum]

lemma classify_fst_mem (safeC safeT : ℝ) :
    (classify safeC safeT).1 ∈
      (["L", "delta", "delta_L", "delta_gamma", "gamma", "gamma_L", "L_Fe3C",
        "alpha", "alpha_gamma", "gamma_Fe3C", "alpha_Fe3C"] : List String) := by
  simp only [classify]
  split_ifs <;> simp [single_fst, lever_fst]

lemma regionLabelOf_ne_unknown (regionId : String) (safeC : ℝ)
    (h : regionId ∈
      (["L", "delta", "delta_L", "delta_gamma", "gamma", "gamma_L", "L_Fe3C",
        "alpha", "alpha_gamma", "gamma_Fe3C", "alpha_Fe3C"] : List String)) :
    regionLabelOf false regionId safeC ≠ "Unknown Region" := by
  simp only [List.mem_cons, List.not_mem_nil, or_false] at h
  rcases h with rfl | rfl | rfl | rfl | rfl | rfl | rfl | rfl | rfl | rfl | rfl
  · show ("Liquid Melt" : String) ≠ "Unknown Region"
    decide
  · show ("Delta Ferrite (δ)" : String) ≠ "Unknown Region"
    decide
  · show ("Mushy Zone (L + δ)" : String) ≠ "Unknown Region"
    decide
  · show ("Two-Phase (δ + γ)" : String) ≠ "Unknown Region"
    decide
  · show ("Austenite Field (γ)" : String) ≠ "Unknown Region"
    decide
  · show ("Mushy Zone (L + γ)" : String) ≠ "Unknown Region"
    decide
  · show ("Liquid + Cementite" : String) ≠ "Unknown Region"
    decide
  · show ("Ferrite Field (α)" : String) ≠ "Unknown Region"
    decide
  · show ("Intercritical (α + γ)" : String) ≠ "Unknown Region"
    decide
  · show (if safeC < 2.11 then ("Austenite + Cementite" : String)
        else "Austenite + Ledeburite") ≠ "Unknown Region"
    split_ifs <;> decide
  · show (if safeC < 0.76 then ("Hypoeutectoid (α + P)" : String)
        else if |safeC - 0.76| < 0.02 then "Eutectoid (Pearlite)"
        else if safeC ≤ 2.11 then "Hypereutectoid (P + Fe₃C)"
        else "Cast Iron (White)") ≠ "Unknown Region"
    split_ifs <;> decide

/-- Claim C1: for every input triple (carbon, temperature, coolingRate), the
fractions array of the ThermodynamicState returned by getState sums to 100
within 1e-6 (it in fact sums to exactly 100 over the reals, both in the
equilibrium case and under the martensite override). -/
theorem getState_fractions_sum_within_tol (c T rate : ℝ) :
    |(((getState c T rate).fractions).map PhaseFraction.frac).sum - 100| ≤ 1e-6 := by
  rw [getState, getStateCore_fractions_sum]
  norm_num

/-- Claim C10: for every input triple, the regionId returned by getState is one
of the twelve identifiers, and the regionLabel is never the fallback string
"Unknown Region". -/
theorem getState_regionId_known (c T rate : ℝ) :
    (getState c T rate).regionId ∈
      (["L", "delta", "delta_L", "delta_gamma", "gamma", "gamma_L", "L_Fe3C",
        "alpha", "alpha_gamma", "gamma_Fe3C", "alpha_Fe3C", "martensite"] : List String) ∧
    (getState c T rate).regionLabel ≠ "Unknown Region" := by
  rw [getState]
  constructor
  · rw [getStateCore_regionId]
    split_ifs
    · simp
    · have h := classify_fst_mem (max 0 (min 6.67 c)) (max 0 T)
      simp only [List.mem_cons, List.not_mem_nil, or_false] at h ⊢
      tauto
  · rw [getStateCore_regionLabel]
    split_ifs
    · simp [regionLabelOf]
    · exact regionLabelOf_ne_unknown _ _ (classify_fst_mem _ _)

/-- Claim C6: getState saturates out-of-range inputs rather than failing:
carbon -5 behaves as carbon 0, carbon 10 behaves as carbon 6.67, and any
negative temperature behaves as temperature 0. -/
theorem getState_saturates :
    (∀ T r : ℝ, (getState (-5) T r).fractions = (getState 0 T r).fractions) ∧
    (∀ T r : ℝ, getState 10 T r = getState 6.67 T r) ∧
    (∀ c r Tneg : ℝ, Tneg < 0 → getState c Tneg r = getState c 0 r) := by
  refine ⟨fun T r => ?_, fun T r => ?_, fun c r Tneg h => ?_⟩
  · have hc : max 0 (min 6.67 (-5 : ℝ)) = max 0 (min 6.67 (0 : ℝ)) := by
      norm_num [min_def, max_def]
    rw [getState, getState, hc]
  · have hc : max 0 (min 6.67 (10 : ℝ)) = max 0 (min 6.67 (6.67 : ℝ)) := by
      norm_num [min_def, max_def]
    rw [getState, getState, hc]
  · have ht : max 0 Tneg = max 0 (0 : ℝ) := by
      rw [max_eq_left h.le, max_self]
    rw [getState, getState, ht]

/-- Witness for C6 at the concrete negative temperature -3. -/
theorem getState_saturates_witness : getState 1 (-3) 2 = getState 1 0 2 :=
  getState_saturates.2.2 1 2 (-3) (by norm_num)

/-- Claim C2: getState returns a quenched (martensitic) state if and only if
coolingRate ≥ 50, clamped carbon < 2.0 and clamped temperature < Ms with
Ms = 539 - 423*carbon; when it triggers the result is the Martensite (BCT) /
Retained Austenite pair with the Koistinen-Marburger fraction; and the three
concrete gating examples behave as stated. -/
theorem getState_quench_characterization :
    (∀ c T rate : ℝ, (getState c T rate).isQuenched = true ↔
      (rate ≥ 50 ∧ max 0 (min 6.67 c) < 2.0 ∧
        max 0 T < 539 - 423 * max 0 (min 6.67 c))) ∧
    (∀ c T rate : ℝ, rate ≥ 50 → max 0 (min 6.67 c) < 2.0 →
      max 0 T < 539 - 423 * max 0 (min 6.67 c) →
      (getState c T rate).regionId = "martensite" ∧
      (getState c T rate).fractions =
        [⟨"Martensite (BCT)",
          max 0 (min 1 (1 - Real.exp (-0.011 *
            ((539 - 423 * max 0 (min 6.67 c)) - max 0 T)))) * 100,
          max 0 (min 6.67 c)⟩,
         ⟨"Retained Austenite",
          (1 - max 0 (min 1 (1 - Real.exp (-0.011 *
            ((539 - 423 * max 0 (min 6.67 c)) - max 0 T))))) * 100,
          max 0 (min 6.67 c)⟩]) ∧
    (getState 0.4 100 10).isQuenched = false ∧
    (getState 0.4 100 150).isQuenched = true ∧
    (getState 2.5 100 150).isQuenched = false := by
  have hiff : ∀ c T rate : ℝ, (getState c T rate).isQuenched = true ↔
      (rate ≥ 50 ∧ max 0 (min 6.67 c) < 2.0 ∧
        max 0 T < 539 - 423 * max 0 (min 6.67 c)) := by
    intro c T rate
    rw [getState, getStateCore_isQuenched]
    by_cases h : quenchCond (max 0 (min 6.67 c)) (max 0 T) rate
    · rw [if_pos h]
      simp only [quenchCond, msTempOf] at h
      simpa using h
    · rw [if_neg h]
      simp only [quenchCond, msTempOf] at h
      simpa using h
  refine ⟨hiff, fun c T rate h1 h2 h3 => ?_, ?_, ?_, ?_⟩
  · have hq : quenchCond (max 0 (min 6.67 c)) (max 0 T) rate :=
      ⟨h1, h2, by simpa [msTempOf] using h3⟩
    constructor
    · rw [getState, getStateCore_regionId, if_pos hq]
    · rw [getState, getStateCore_fractions, if_pos hq]
      rfl
  · simp only [Bool.eq_false_iff, ne_eq, hiff]
    norm_num
  · rw [hiff]
    norm_num [min_def, max_def]
  · simp only [Bool.eq_false_iff, ne_eq, hiff]
    norm_num [min_def, max_def]

/-- Witness for C2 at the concrete quenched input (0.4, 100, 150). -/
theorem getState_quench_characterization_witness :
    (getState 0.4 100 150).regionId = "martensite" :=
  (getState_quench_characterization.2.1 0.4 100 150 (by norm_num)
    (by norm_num [min_def, max_def]) (by norm_num [min_def, max_def])).1

lemma lever_snd_ne_nil (safeC : ℝ) (id n1 n2 : String) (c1 c2 : ℝ) :
    (lever safeC id n1 n2 c1 c2).2 ≠ [] := by
  simp only [lever]
  split <;> simp

lemma classify_snd_ne_nil (safeC safeT : ℝ) : (classify safeC safeT).2 ≠ [] := by
  simp only [classify]
  split_ifs <;> first
    | apply lever_snd_ne_nil
    | simp [single]

lemma renormalize_ne_nil {l : List PhaseFraction} (h : l ≠ []) :
    renormalize l ≠ [] := by
  simp only [renormalize]
  split_ifs <;> simpa

/-- Claim C8: in every lever-rule evaluation, a tie-line span below EPS = 1e-5
short-circuits to the single PhaseFraction (name1, 100, c1) without dividing;
when it does not short-circuit, the only division performed has denominator
c2 - c1 ≥ EPS; and getState is total, always returning a nonempty fractions
array. -/
theorem lever_guard_and_total :
    (∀ (safeC : ℝ) (id n1 n2 : String) (c1 c2 : ℝ), c2 - c1 < EPS →
      lever safeC id n1 n2 c1 c2 = (id, [⟨n1, 100, c1⟩])) ∧
    (∀ (safeC : ℝ) (id n1 n2 : String) (c1 c2 : ℝ), ¬(c2 - c1 < EPS) →
      lever safeC id n1 n2 c1 c2 =
        (id, [⟨n1, max 0 (min 100 (100 - ((safeC - c1) / (c2 - c1)) * 100)), c1⟩,
              ⟨n2, max 0 (min 100 (((safeC - c1) / (c2 - c1)) * 100)), c2⟩])) ∧
    (∀ c T rate : ℝ, (getState c T rate).fractions ≠ []) := by
  refine ⟨fun safeC id n1 n2 c1 c2 h => ?_, fun safeC id n1 n2 c1 c2 h => ?_,
    fun c T rate => ?_⟩
  · rw [lever, if_pos h]
  · rw [lever, if_neg h]
  · rw [getState, getStateCore_fractions]
    split_ifs
    · simp [martensiteFractions]
    · exact renormalize_ne_nil (classify_snd_ne_nil _ _)

/-- Witness for C8 at a concrete degenerate tie line (span 0 below EPS). -/
theorem lever_guard_and_total_witness :
    lever 1 "x" "A" "B" 5 5 = ("x", [⟨"A", 100, 5⟩]) :=
  lever_guard_and_total.1 1 "x" "A" "B" 5 5 (by norm_num [EPS])

lemma getStateCore_eq_of_not_quench {safeC safeT rate : ℝ}
    (h : ¬ quenchCond safeC safeT rate) :
    getStateCore safeC safeT rate =
      { regionId := (classify safeC safeT).1,
        regionLabel := regionLabelOf false (classify safeC safeT).1 safeC,
        fractions := renormalize (classify safeC safeT).2,
        isQuenched := false,
        msTemp := if safeC < 2.0 then some (msTempOf safeC) else none,
        micro := (predictProperties safeC safeT
          (renormalize (classify safeC safeT).2) false).micro,
        crystal := (predictProperties safeC safeT
          (renormalize (classify safeC safeT).2) false).crystal,
        yieldStrength := (predictProperties safeC safeT
          (renormalize (classify safeC safeT).2) false).yieldStrength,
        uts := (predictProperties safeC safeT
          (renormalize (classify safeC safeT).2) false).uts,
        hardness := (predictProperties safeC safeT
          (renormalize (classify safeC safeT).2) false).hardness,
        elong := (predictProperties safeC safeT
          (renormalize (classify safeC safeT).2) false).elong } := by
  simp only [getStateCore]
  rw [if_neg h]

/-- Claim C5: each pair of adjacent boundary curves agrees at its shared
anchor temperature, within 1e-3: A3 and alpha-solvus at 912, Acm and solidus
at 1147, liquidus and the liquid/cementite line at 1147, the two pieces of
the delta-solidus at 1495, and delta-liquidus and liquidus at 1495. -/
theorem anchor_continuity :
    |c_a3 912 - c_alpha 912| ≤ 1e-3 ∧
    |c_acm 1147 - c_solidus 1147| ≤ 1e-3 ∧
    |c_liquidus 1147 - c_l_fe3c 1147| ≤ 1e-3 ∧
    |c_delta_solidus 1495 - 0.09 * ((1495 - 1394) / 101)| ≤ 1e-3 ∧
    |c_delta_liquidus 1495 - c_liquidus 1495| ≤ 1e-3 := by
  refine ⟨?_, ?_, ?_, ?_, ?_⟩
  · norm_num [c_a3, c_alpha, Real.zero_rpow]
  · norm_num [c_acm, c_solidus, Real.one_rpow]
  · norm_num [c_liquidus, c_l_fe3c, Real.one_rpow]
  · norm_num [c_delta_solidus]
  · norm_num [c_delta_liquidus, c_liquidus, Real.zero_rpow]

/-- Claim C9: getState(0.45, 1600, 0) returns region id "L" with a single
PhaseFraction named "Liquid" at 100%, micro "Uniform Liquid", zero yield
strength, ultimate tensile strength and hardness, and elongation 100. -/
theorem liquid_scenario :
    (getState 0.45 1600 0).regionId = "L" ∧
    (getState 0.45 1600 0).fractions = [⟨"Liquid", 100, 0.45⟩] ∧
    (getState 0.45 1600 0).micro = "Uniform Liquid" ∧
    (getState 0.45 1600 0).yieldStrength = 0 ∧
    (getState 0.45 1600 0).uts = 0 ∧
    (getState 0.45 1600 0).hardness = 0 ∧
    (getState 0.45 1600 0).elong = 100 := by
  have hC : max 0 (min 6.67 (0.45 : ℝ)) = 0.45 := by norm_num [min_def, max_def]
  have hT : max (0 : ℝ) 1600 = 1600 := by norm_num [max_def]
  have hnq : ¬ quenchCond 0.45 1600 0 := fun h => absurd h.1 (by norm_num)
  have hclass : classify 0.45 1600 = ("L", [⟨"Liquid", 100, 0.45⟩]) := by
    simp only [classify]
    rw [if_pos (by norm_num : (1600 : ℝ) ≥ 1394),
      if_pos (by norm_num : (1600 : ℝ) ≥ 1538)]
    rfl
  have hre : renormalize [⟨"Liquid", (100 : ℝ), 0.45⟩] = [⟨"Liquid", 100, 0.45⟩] :=
    renormalize_eq_self (by simp)
  have hpp : predictProperties 0.45 1600 [⟨"Liquid", (100 : ℝ), 0.45⟩] false =
      { micro := "Uniform Liquid", crystal := "Amorphous",
        yieldStrength := 0, uts := 0, hardness := 0, elong := 100 } := by
    simp only [predictProperties]
    rw [if_pos (by norm_num : (1600 : ℝ) > 1495)]
  rw [getState, hC, hT, getStateCore_eq_of_not_quench hnq, hclass]
  simp [hre, hpp]

lemma rpow_unit_bounds (b p : ℝ) (hb0 : 0 ≤ b) (hb1 : b ≤ 1) (hp : 0 ≤ p) :
    0 ≤ b ^ p ∧ b ^ p ≤ 1 :=
  ⟨Real.rpow_nonneg hb0 p, Real.rpow_le_one hb0 hb1 hp⟩

/-- Counterexample to C4: at T = 1538 (inside the claimed domain [0, 1538]),
c_l_fe3c exceeds the cementite stoichiometric limit 6.67. -/
theorem curve_range_cex : ¬ (c_l_fe3c 1538 ≤ 6.67) := by
  simp only [c_l_fe3c]
  norm_num

/-- Amended C4: on [0°C, 1538°C] seven of the eight boundary curves stay in
[0, 6.67] wt% C; c_l_fe3c is nonnegative and stays at or below 6.67 exactly
up to T = 1250, and strictly exceeds 6.67 above 1250. -/
theorem curve_range_amended (T : ℝ) (h0 : 0 ≤ T) (h1 : T ≤ 1538) :
    (0 ≤ c_alpha T ∧ c_alpha T ≤ 6.67) ∧
    (0 ≤ c_a3 T ∧ c_a3 T ≤ 6.67) ∧
    (0 ≤ c_acm T ∧ c_acm T ≤ 6.67) ∧
    (0 ≤ c_solidus T ∧ c_solidus T ≤ 6.67) ∧
    (0 ≤ c_liquidus T ∧ c_liquidus T ≤ 6.67) ∧
    (0 ≤ c_delta_solidus T ∧ c_delta_solidus T ≤ 6.67) ∧
    (0 ≤ c_delta_liquidus T ∧ c_delta_liquidus T ≤ 6.67) ∧
    (0 ≤ c_l_fe3c T) ∧
    (T ≤ 1250 → c_l_fe3c T ≤ 6.67) ∧
    (1250 < T → 6.67 < c_l_fe3c T) := by
  refine ⟨?_, ?_, ?_, ?_, ?_, ?_, ?_, ?_, ?_, ?_⟩
  · simp only [c_alpha]
    split_ifs with ha hb
    · norm_num
    · push_neg at ha
      constructor <;> nlinarith
    · push_neg at ha hb
      have hm1 : max 0 T ≤ 727 := max_le (by norm_num) (by linarith)
      obtain ⟨hr0, hr1⟩ := rpow_unit_bounds (max 0 T / 727) 3
        (div_nonneg (le_max_left 0 T) (by norm_num))
        (by rw [div_le_one (by norm_num)]; exact hm1) (by norm_num)
      constructor <;> nlinarith
  · simp only [c_a3]
    split_ifs with ha
    · norm_num
    · push_neg at ha
      obtain ⟨hr0, hr1⟩ := rpow_unit_bounds ((912 - T) / 185) 1.2
        (div_nonneg (by linarith [ha.1]) (by norm_num))
        (by rw [div_le_one (by norm_num)]; linarith [ha.2]) (by norm_num)
      constructor <;> nlinarith
  · simp only [c_acm]
    split_ifs with ha hb
    · norm_num
    · norm_num
    · push_neg at ha hb
      obtain ⟨hr0, hr1⟩ := rpow_unit_bounds ((T - 727) / 420) 1.4
        (div_nonneg (by linarith) (by norm_num))
        (by rw [div_le_one (by norm_num)]; linarith) (by norm_num)
      constructor <;> nlinarith
  · simp only [c_solidus]
    split_ifs with ha hb
    · norm_num
    · norm_num
    · push_neg at ha hb
      obtain ⟨hr0, hr1⟩ := rpow_unit_bounds ((1495 - T) / 348) 0.85
        (div_nonneg (by linarith) (by norm_num))
        (by rw [div_le_one (by norm_num)]; linarith) (by norm_num)
      constructor <;> nlinarith
  · simp only [c_liquidus]
    split_ifs with ha hb
    · norm_num
    · norm_num
    · push_neg at ha hb
      obtain ⟨hr0, hr1⟩ := rpow_unit_bounds ((1495 - T) / 348) 0.85
        (div_nonneg (by linarith) (by norm_num))
        (by rw [div_le_one (by norm_num)]; linarith) (by norm_num)
      constructor <;> nlinarith
  · simp only [c_delta_solidus]
    split_ifs with ha hb
    · norm_num
    · push_neg at ha
      constructor <;> nlinarith [ha.1, ha.2]
    · push_neg at ha hb
      constructor <;> nlinarith [ha.1, ha.2]
  · simp only [c_delta_liquidus]
    split_ifs with ha
    · norm_num
    · push_neg at ha
      constructor <;> nlinarith [ha.1, ha.2]
  · simp only [c_l_fe3c]
    split_ifs with ha
    · norm_num
    · push_neg at ha
      nlinarith
  · intro hT
    simp only [c_l_fe3c]
    split_ifs with ha
    · norm_num
    · push_neg at ha
      nlinarith
  · intro hT
    simp only [c_l_fe3c]
    rw [if_neg (by push_neg; linarith : ¬ T < 1147)]
    nlinarith

/-- Witness for the amended C4 at the concrete in-domain temperature 500. -/
theorem curve_range_amended_witness :
    (0 ≤ c_alpha 500 ∧ c_alpha 500 ≤ 6.67) ∧
    (0 ≤ c_a3 500 ∧ c_a3 500 ≤ 6.67) ∧
    (0 ≤ c_acm 500 ∧ c_acm 500 ≤ 6.67) ∧
    (0 ≤ c_solidus 500 ∧ c_solidus 500 ≤ 6.67) ∧
    (0 ≤ c_liquidus 500 ∧ c_liquidus 500 ≤ 6.67) ∧
    (0 ≤ c_delta_solidus 500 ∧ c_delta_solidus 500 ≤ 6.67) ∧
    (0 ≤ c_delta_liquidus 500 ∧ c_delta_liquidus 500 ≤ 6.67) ∧
    (0 ≤ c_l_fe3c 500) ∧
    ((500 : ℝ) ≤ 1250 → c_l_fe3c 500 ≤ 6.67) ∧
    ((1250 : ℝ) < 500 → 6.67 < c_l_fe3c 500) :=
  curve_range_amended 500 (by norm_num) (by norm_num)

/-! ## Helpers for the intercritical band at 750°C (claim C3) -/

lemma rpow_162_185_bounds :
    0.766 < ((162 : ℝ) / 185) ^ (1.2 : ℝ) ∧ ((162 : ℝ) / 185) ^ (1.2 : ℝ) < 0.876 := by
  constructor
  · have h2 : ((162 : ℝ) / 185) ^ (2 : ℝ) < ((162 : ℝ) / 185) ^ (1.2 : ℝ) :=
      Real.rpow_lt_rpow_of_exponent_gt (by norm_num) (by norm_num) (by norm_num)
    have h2n : ((162 : ℝ) / 185) ^ (2 : ℝ) = ((162 : ℝ) / 185) ^ (2 : ℕ) := by
      rw [show ((2 : ℝ)) = ((2 : ℕ) : ℝ) by norm_num, Real.rpow_natCast]
    rw [h2n] at h2
    nlinarith [h2]
  · have h1 : ((162 : ℝ) / 185) ^ (1.2 : ℝ) < ((162 : ℝ) / 185) ^ (1 : ℝ) :=
      Real.rpow_lt_rpow_of_exponent_gt (by norm_num) (by norm_num) (by norm_num)
    rw [Real.rpow_one] at h1
    nlinarith [h1]

lemma c_alpha_at_750 : c_alpha 750 = 0.022 * (162 / 185) := by
  simp only [c_alpha]
  rw [if_neg (by norm_num : ¬ (750 : ℝ) > 912), if_pos (by norm_num : (750 : ℝ) ≥ 727)]
  norm_num

lemma c_a3_at_750 : c_a3 750 = 0.76 * ((162 : ℝ) / 185) ^ (1.2 : ℝ) := by
  simp only [c_a3]
  rw [if_neg (by norm_num : ¬ ((750 : ℝ) > 912 ∨ (750 : ℝ) < 727))]
  norm_num

lemma c_a3_at_750_bounds : 0.582 < c_a3 750 ∧ c_a3 750 < 0.666 := by
  rw [c_a3_at_750]
  obtain ⟨hl, hu⟩ := rpow_162_185_bounds
  constructor <;> nlinarith

lemma classify_alpha_gamma_750 (x : ℝ) (hx1 : c_alpha 750 < x) (hx2 : x ≤ c_a3 750) :
    classify x 750 =
      lever x "alpha_gamma" "Ferrite (α)" "Austenite (γ)" (c_alpha 750) (c_a3 750) := by
  simp only [classify]
  rw [if_neg (by norm_num : ¬ (750 : ℝ) ≥ 1394), if_neg (by norm_num : ¬ (750 : ℝ) > 1147),
    if_pos (by norm_num : (750 : ℝ) > 727), if_neg (not_le.mpr hx1), if_pos ⟨hx1, hx2⟩]

lemma lever_alpha_gamma_750_fracs (x : ℝ) (hx1 : c_alpha 750 < x) (hx2 : x ≤ c_a3 750) :
    ((lever x "alpha_gamma" "Ferrite (α)" "Austenite (γ)" (c_alpha 750) (c_a3 750)).2).map
        PhaseFraction.frac =
      [100 - ((x - c_alpha 750) / (c_a3 750 - c_alpha 750)) * 100,
       ((x - c_alpha 750) / (c_a3 750 - c_alpha 750)) * 100] := by
  have hca := c_alpha_at_750
  obtain ⟨hl, hu⟩ := c_a3_at_750_bounds
  have hspan : 0 < c_a3 750 - c_alpha 750 := by nlinarith
  have hW0 : 0 ≤ ((x - c_alpha 750) / (c_a3 750 - c_alpha 750)) * 100 := by
    have := div_nonneg (by linarith : (0 : ℝ) ≤ x - c_alpha 750) hspan.le
    nlinarith
  have hW1 : ((x - c_alpha 750) / (c_a3 750 - c_alpha 750)) * 100 ≤ 100 := by
    have := (div_le_one hspan).mpr (by linarith : x - c_alpha 750 ≤ c_a3 750 - c_alpha 750)
    nlinarith
  simp only [lever]
  rw [if_neg (by simp only [EPS]; nlinarith :
    ¬ (c_a3 750 - c_alpha 750 < EPS))]
  simp only [List.map_cons, List.map_nil]
  rw [min_eq_right (by linarith : (100 : ℝ) -
      ((x - c_alpha 750) / (c_a3 750 - c_alpha 750)) * 100 ≤ 100),
    max_eq_right (by linarith : (0 : ℝ) ≤ 100 -
      ((x - c_alpha 750) / (c_a3 750 - c_alpha 750)) * 100),
    min_eq_right hW1, max_eq_right hW0]

lemma getState_041_750_fracs :
    ((getState 0.41 750 0).fractions).map PhaseFraction.frac =
      [100 - ((0.41 - c_alpha 750) / (c_a3 750 - c_alpha 750)) * 100,
       ((0.41 - c_alpha 750) / (c_a3 750 - c_alpha 750)) * 100] := by
  have hca := c_alpha_at_750
  obtain ⟨hl, hu⟩ := c_a3_at_750_bounds
  have hx1 : c_alpha 750 < 0.41 := by nlinarith
  have hx2 : (0.41 : ℝ) ≤ c_a3 750 := by nlinarith
  have hclamp : max 0 (min 6.67 (0.41 : ℝ)) = 0.41 := by norm_num [min_def, max_def]
  have hT : max (0 : ℝ) 750 = 750 := by norm_num [max_def]
  have hnq : ¬ quenchCond 0.41 750 0 := fun h => absurd h.1 (by norm_num)
  rw [getState, hclamp, hT, getStateCore_fractions, if_neg hnq,
    classify_alpha_gamma_750 0.41 hx1 hx2,
    renormalize_eq_self (lever_sum 0.41 "alpha_gamma" "Ferrite (α)" "Austenite (γ)"
      (c_alpha 750) (c_a3 750)),
    lever_alpha_gamma_750_fracs 0.41 hx1 hx2]

lemma w2_041_750_bounds :
    60 < ((0.41 - c_alpha 750) / (c_a3 750 - c_alpha 750)) * 100 ∧
    ((0.41 - c_alpha 750) / (c_a3 750 - c_alpha 750)) * 100 < 70 := by
  have hca := c_alpha_at_750
  obtain ⟨hl, hu⟩ := c_a3_at_750_bounds
  have hspan : 0 < c_a3 750 - c_alpha 750 := by nlinarith
  constructor
  · rw [div_mul_eq_mul_div, lt_div_iff₀ hspan]
    nlinarith
  · rw [div_mul_eq_mul_div, div_lt_iff₀ hspan]
    nlinarith

/-- Counterexample to C3: at 750°C the austenite tie-line endpoint c_a3(750)
is not 0.76, and getState(0.41, 750, 0) does not split ≈50/50: its second
(austenite) fraction differs from 50 by more than 1. -/
theorem lever_linearity_cex :
    c_a3 750 ≠ 0.76 ∧
    1 < |(((getState 0.41 750 0).fractions).map PhaseFraction.frac).getD 1 0 - 50| := by
  constructor
  · obtain ⟨hl, hu⟩ := c_a3_at_750_bounds
    intro h
    rw [h] at hu
    norm_num at hu
  · rw [getState_041_750_fracs]
    show 1 < |((0.41 - c_alpha 750) / (c_a3 750 - c_alpha 750)) * 100 - 50|
    obtain ⟨h60, _⟩ := w2_041_750_bounds
    rw [abs_of_nonneg (by linarith)]
    linarith

/-- Amended C3: at 750°C the actual tie-line endpoints are
c1 = c_alpha(750) = 0.022·(162/185) ≈ 0.0193 and
c2 = c_a3(750) = 0.76·(162/185)^1.2 ∈ (0.582, 0.666), not (0.022, 0.76);
getState(0.41, 750, 0) is the two-phase ferrite+austenite lever state whose
austenite fraction lies strictly between 60 and 70 (so not 50/50 within 1%),
and the exact midpoint (c1+c2)/2 of the actual endpoints yields a 50/50
split. -/
theorem lever_linearity_amended :
    c_alpha 750 = 0.022 * (162 / 185) ∧
    c_a3 750 = 0.76 * ((162 : ℝ) / 185) ^ (1.2 : ℝ) ∧
    (getState 0.41 750 0).regionId = "alpha_gamma" ∧
    ((getState 0.41 750 0).fractions).map PhaseFraction.frac =
      [100 - ((0.41 - c_alpha 750) / (c_a3 750 - c_alpha 750)) * 100,
       ((0.41 - c_alpha 750) / (c_a3 750 - c_alpha 750)) * 100] ∧
    (60 < ((0.41 - c_alpha 750) / (c_a3 750 - c_alpha 750)) * 100 ∧
      ((0.41 - c_alpha 750) / (c_a3 750 - c_alpha 750)) * 100 < 70) ∧
    ((getState ((c_alpha 750 + c_a3 750) / 2) 750 0).fractions).map PhaseFraction.frac =
      [50, 50] := by
  have hca := c_alpha_at_750
  obtain ⟨hl, hu⟩ := c_a3_at_750_bounds
  refine ⟨c_alpha_at_750, c_a3_at_750, ?_, getState_041_750_fracs, w2_041_750_bounds, ?_⟩
  · have hx1 : c_alpha 750 < 0.41 := by nlinarith
    have hx2 : (0.41 : ℝ) ≤ c_a3 750 := by nlinarith
    have hclamp : max 0 (min 6.67 (0.41 : ℝ)) = 0.41 := by norm_num [min_def, max_def]
    have hT : max (0 : ℝ) 750 = 750 := by norm_num [max_def]
    have hnq : ¬ quenchCond 0.41 750 0 := fun h => absurd h.1 (by norm_num)
    rw [getState, hclamp, hT, getStateCore_regionId, if_neg hnq,
      classify_alpha_gamma_750 0.41 hx1 hx2, lever_fst]
  · have hm1 : c_alpha 750 < (c_alpha 750 + c_a3 750) / 2 := by nlinarith
    have hm2 : (c_alpha 750 + c_a3 750) / 2 ≤ c_a3 750 := by nlinarith
    have hclamp : max 0 (min 6.67 ((c_alpha 750 + c_a3 750) / 2)) =
        (c_alpha 750 + c_a3 750) / 2 := by
      rw [min_eq_right (by nlinarith), max_eq_right (by nlinarith)]
    have hT : max (0 : ℝ) 750 = 750 := by norm_num [max_def]
    have hnq : ¬ quenchCond ((c_alpha 750 + c_a3 750) / 2) 750 0 :=
      fun h => absurd h.1 (by norm_num)
    rw [getState, hclamp, hT, getStateCore_fractions, if_neg hnq,
      classify_alpha_gamma_750 _ hm1 hm2,
      renormalize_eq_self (lever_sum ((c_alpha 750 + c_a3 750) / 2) "alpha_gamma"
        "Ferrite (α)" "Austenite (γ)" (c_alpha 750) (c_a3 750)),
      lever_alpha_gamma_750_fracs _ hm1 hm2]
    have hW : (((c_alpha 750 + c_a3 750) / 2 - c_alpha 750) /
        (c_a3 750 - c_alpha 750)) * 100 = 50 := by
      have hspan : c_a3 750 - c_alpha 750 ≠ 0 := by nlinarith
      field_simp
      ring
    rw [hW]
    norm_num

/-! ## Helpers for the eutectoid point (claim C7) -/

lemma c_alpha_at_700_bounds : 0 ≤ c_alpha 700 ∧ c_alpha 700 ≤ 0.022 := by
  have hmax : max (0 : ℝ) 700 = 700 := by norm_num [max_def]
  simp only [c_alpha]
  rw [if_neg (by norm_num : ¬ (700 : ℝ) > 912), if_neg (by norm_num : ¬ (700 : ℝ) ≥ 727),
    hmax]
  obtain ⟨hr0, hr1⟩ := rpow_unit_bounds ((700 : ℝ) / 727) 3
    (by norm_num) (by norm_num) (by norm_num)
  constructor <;> nlinarith

lemma classify_076_700 :
    classify 0.76 700 =
      lever 0.76 "alpha_Fe3C" "Ferrite (α)" "Cementite (Fe₃C)" (c_alpha 700) 6.67 := by
  obtain ⟨h0, h1⟩ := c_alpha_at_700_bounds
  simp only [classify]
  rw [if_neg (by norm_num : ¬ (700 : ℝ) ≥ 1394), if_neg (by norm_num : ¬ (700 : ℝ) > 1147),
    if_neg (by norm_num : ¬ (700 : ℝ) > 727),
    if_neg (by nlinarith : ¬ (0.76 : ℝ) ≤ c_alpha 700)]

lemma lever_076_700_names :
    ((lever 0.76 "alpha_Fe3C" "Ferrite (α)" "Cementite (Fe₃C)" (c_alpha 700) 6.67).2).map
      PhaseFraction.name = ["Ferrite (α)", "Cementite (Fe₃C)"] := by
  obtain ⟨h0, h1⟩ := c_alpha_at_700_bounds
  simp only [lever]
  rw [if_neg (by simp only [EPS]; nlinarith : ¬ ((6.67 : ℝ) - c_alpha 700 < EPS))]
  rfl

lemma getState_076_700_fields :
    (getState 0.76 700 0).regionId = "alpha_Fe3C" ∧
    (getState 0.76 700 0).regionLabel = "Eutectoid (Pearlite)" ∧
    ((getState 0.76 700 0).fractions).map PhaseFraction.name =
      ["Ferrite (α)", "Cementite (Fe₃C)"] := by
  have hclamp : max 0 (min 6.67 (0.76 : ℝ)) = 0.76 := by norm_num [min_def, max_def]
  have hT : max (0 : ℝ) 700 = 700 := by norm_num [max_def]
  have hnq : ¬ quenchCond 0.76 700 0 := fun h => absurd h.1 (by norm_num)
  refine ⟨?_, ?_, ?_⟩
  · rw [getState, hclamp, hT, getStateCore_regionId, if_neg hnq, classify_076_700,
      lever_fst]
  · rw [getState, hclamp, hT, getStateCore_regionLabel, if_neg hnq, classify_076_700,
      lever_fst]
    show (if (0.76 : ℝ) < 0.76 then ("Hypoeutectoid (α + P)" : String)
      else if |(0.76 : ℝ) - 0.76| < 0.02 then "Eutectoid (Pearlite)"
      else if (0.76 : ℝ) ≤ 2.11 then "Hypereutectoid (P + Fe₃C)"
      else "Cast Iron (White)") = "Eutectoid (Pearlite)"
    rw [if_neg (by norm_num), if_pos (by rw [sub_self, abs_zero]; norm_num)]
  · rw [getState, hclamp, hT, getStateCore_fractions, if_neg hnq, classify_076_700,
      renormalize_eq_self (lever_sum 0.76 "alpha_Fe3C" "Ferrite (α)" "Cementite (Fe₃C)"
        (c_alpha 700) 6.67),
      lever_076_700_names]

/-- Counterexample to C7: getState(0.76, 700, 0) is not single phase — its
fractions array has two entries (a ferrite+cementite lever pair), not one. -/
theorem eutectoid_point_cex : ¬ ((getState 0.76 700 0).fractions.length = 1) := by
  have h := congrArg List.length getState_076_700_fields.2.2
  rw [List.length_map] at h
  rw [h]
  norm_num

/-- Amended C7: getState(0.76, 700, 0) has region id "alpha_Fe3C" and the
eutectoid/Pearlite region label, but the state is two-phase: the fractions
array holds the lever pair Ferrite (α) and Cementite (Fe₃C). -/
theorem eutectoid_point_amended :
    (getState 0.76 700 0).regionId = "alpha_Fe3C" ∧
    (getState 0.76 700 0).regionLabel = "Eutectoid (Pearlite)" ∧
    ((getState 0.76 700 0).fractions).map PhaseFraction.name =
      ["Ferrite (α)", "Cementite (Fe₃C)"] :=
  getState_076_700_fields

end ThermoEngine
